import Mathlib

/-!
Shallow embedding of the `wix-login-react-native` repository
(`src/WixLogin.tsx`, `src/useWixLogin.ts`, `src/isOAuthClient.ts`,
`src/errors.ts`) and proofs of the specification claims about it.

The component is modelled as a record of local state (`ComponentState`),
the process-wide globals as `GlobalState`, and each React event handler /
effect as a pure function from state to state, paired with the ordered
list of observable calls it makes (client operations and user callbacks)
and the error it throws, if any.
-/

namespace WixLoginRN

/-- Opaque authorization data (nonce/state plus code verifier) generated by
the external client; the component never inspects it. -/
structure OauthData where
  payload : Nat
deriving DecidableEq, Repr

/-- Opaque credential tokens returned by the token exchange. -/
structure Tokens where
  payload : Nat
deriving DecidableEq, Repr

/-- Result of `client.auth.parseFromUrl`: the authorization code and state
extracted from a deep-link URL. -/
structure ParsedUrl where
  code : String
  state : String
deriving DecidableEq, Repr

/-- The external Wix client, as the component sees it: four operations that
may or may not be present (`isOAuthClient` duck-types on their presence).
`getAuthUrl` is the value its promise resolves with. -/
structure WixClient where
  generateOAuthData : Option (String → OauthData)
  getAuthUrl : Option (OauthData → String)
  parseFromUrl : Option (String → ParsedUrl)
  getMemberTokens : Option (String → String → OauthData → Tokens)

/-- Embedding of `src/isOAuthClient.ts`: the client exposes all four OAuth operations. -/
def isOAuthClient (wix : WixClient) : Bool :=
  wix.generateOAuthData.isSome && wix.getAuthUrl.isSome &&
    wix.parseFromUrl.isSome && wix.getMemberTokens.isSome

/-- Embedding of `src/errors.ts`: the error taxonomy. `clientIsNotOAuthClient` is
imported by `WixLogin.tsx` from `./errors` though its class body is not among the
provided sources; only its identity matters to the claims. -/
inductive WixLoginError where
  | componentNotMounted
  | tooManyComponents
  | unauthorizedCallbackUrl (callbackUrl : String)
  | clientIsNotOAuthClient
deriving DecidableEq, Repr

/-- The text of `UnauthorizedCallbackUrl` before the interpolated URL. -/
def unauthorizedCallbackUrlMsgPre : String :=
  "In order to login with Wix, you need to tell Wix it can trust this app.\n\n" ++
    "In order to do that, follow these steps:\n" ++
    "1. Head over to https://manage.wix.com and select your Headless project\n" ++
    "2. Select \"Settings\" from the sidebar\n" ++
    "3. Select \"Headless Settings\"\n" ++
    "4. Under \"OAuth Apps\", go to your app\x27s settings\n" ++
    "5. Under \"Allowed authorization redirect URIs\", add the following URL: "

/-- The text of `UnauthorizedCallbackUrl` after the interpolated URL. -/
def unauthorizedCallbackUrlMsgPost : String :=
  "\n\nDo note: if you are using Expo Go, this URL WILL change once you build your own binary."

/-- Embedding of the messages in `src/errors.ts`: the human-readable message of
each error (`clientIsNotOAuthClient` has no message among the provided sources). -/
def WixLoginError.message : WixLoginError → String
  | .componentNotMounted =>
      "The <WixLogin /> component cannot be found anywhere in your app.\n" ++
        "Please make sure to include it, preferably in your root component."
  | .tooManyComponents =>
      "There are multiple <WixLogin /> components mounted at the same time.\n" ++
        "Please make sure to have only one <WixLogin /> component in your code, preferably in your root component."
  | .unauthorizedCallbackUrl callbackUrl =>
      unauthorizedCallbackUrlMsgPre ++ callbackUrl ++ unauthorizedCallbackUrlMsgPost
  | .clientIsNotOAuthClient => ""

/-- Observable calls a handler makes, in order: the four client operations
plus the two user-supplied callbacks. -/
inductive Call where
  | generateOAuthData (callbackUrl : String)
  | getAuthUrl (d : OauthData)
  | parseFromUrl (url : String)
  | getMemberTokens (code state : String) (d : OauthData)
  | onLoginComplete (tokens : Tokens)
  | onLoginCanceled
deriving DecidableEq, Repr

/-- Local state of one `WixLogin` component instance: the `isMounted` ref,
the `isModalOpen` state, the `oAuthData` ref and the `authUrl` state. -/
structure ComponentState where
  isMounted : Bool
  isModalOpen : Bool
  oAuthData : Option OauthData
  authUrl : String
deriving DecidableEq, Repr

/-- Process-wide state: the `global.__OPEN_WIX_LOGIN_MODAL` handle (holding
the id of the instance whose `openModal` it stores) and the number of
`Linking` URL listeners registered. -/
structure GlobalState where
  openWixLoginModal : Option Nat
  urlListeners : Nat
deriving DecidableEq, Repr

/-- Result of running one handler: the error it throws (if any), the
component state after it, and the ordered calls it made before throwing
or returning. -/
structure StepResult where
  err : Option WixLoginError
  state : ComponentState
  calls : List Call
deriving DecidableEq, Repr

/-- Embedding of the `WixLogin.tsx` mount effect (the `useEffect(..., [])` body): if the global
handle is already set, throw `TooManyComponentsError` (before touching
anything); otherwise register the URL listener, install this instance in the
global handle and set the mounted flag. -/
def mount (inst : Nat) (g : GlobalState) (s : ComponentState) :
    Except WixLoginError (GlobalState × ComponentState) :=
  if (g.openWixLoginModal).isSome then
    .error .tooManyComponents
  else
    .ok ({ openWixLoginModal := some inst, urlListeners := g.urlListeners + 1 },
         { s with isMounted := true })

/-- Embedding of the `WixLogin.tsx` `onUnmount` cleanup: delete the global handle and clear
the mounted flag. The URL listener is not removed. -/
def unmount (g : GlobalState) (s : ComponentState) : GlobalState × ComponentState :=
  ({ g with openWixLoginModal := none }, { s with isMounted := false })

/-- Embedding of `WixLogin.tsx` `openModal`: sets the modal open only when the
instance is still mounted. -/
def openModal (s : ComponentState) : ComponentState :=
  if s.isMounted then { s with isModalOpen := true } else s

/-- Embedding of the `WixLogin.tsx` `useEffect(..., [isModalOpen])` body: throw if the client is
not an OAuth client; when the modal is open, generate authorization data,
issue the `getAuthUrl` call (its promise resolves later, see
`resolveAuthUrl`) and store the data in the `oAuthData` ref; when it is
closed, reset `authUrl` to the empty string. -/
def modalEffect (client : WixClient) (callbackUrl : String) (s : ComponentState) :
    StepResult :=
  if !isOAuthClient client then
    ⟨some .clientIsNotOAuthClient, s, []⟩
  else if s.isModalOpen then
    match client.generateOAuthData with
    | some gen =>
        let authData := gen callbackUrl
        ⟨none, { s with oAuthData := some authData },
          [.generateOAuthData callbackUrl, .getAuthUrl authData]⟩
    | none => ⟨some .clientIsNotOAuthClient, s, []⟩
  else
    ⟨none, { s with authUrl := "" }, []⟩

/-- The continuation of `client.auth.getAuthUrl(...).then(...)`: applies the
resolved URL with `setAuthUrl`, with no mounted/session guard. -/
def resolveAuthUrl (resolvedUrl : String) (s : ComponentState) : ComponentState :=
  { s with authUrl := resolvedUrl }

/-- Embedding of `WixLogin.tsx` `onLoginCallback`, the deep-link URL handler: throw if
the client is not an OAuth client; return silently unless the instance is
mounted and the `oAuthData` ref is set; otherwise parse the URL, exchange
the code and state with the pending authorization data for tokens, invoke
`onLoginComplete` with them and close the modal. -/
def onLoginCallback (client : WixClient) (withUrl : String) (s : ComponentState) :
    StepResult :=
  if !isOAuthClient client then
    ⟨some .clientIsNotOAuthClient, s, []⟩
  else if !s.isMounted || s.oAuthData.isNone then
    ⟨none, s, []⟩
  else
    match client.parseFromUrl, client.getMemberTokens, s.oAuthData with
    | some parse, some exchange, some pending =>
        let parsed := parse withUrl
        let tokens := exchange parsed.code parsed.state pending
        ⟨none, { s with isModalOpen := false },
          [.parseFromUrl withUrl,
           .getMemberTokens parsed.code parsed.state pending,
           .onLoginComplete tokens]⟩
    | _, _, _ => ⟨none, s, []⟩

/-- Embedding of the `WixLogin.tsx` `onHttpError` handler on the web view: on HTTP status 400, close
the modal and throw `UnauthorizedCallbackUrl` with the constructed callback
URL; any other status is ignored. -/
def onHttpError (callbackUrl : String) (statusCode : Int) (s : ComponentState) :
    StepResult :=
  if statusCode = 400 then
    ⟨some (.unauthorizedCallbackUrl callbackUrl), { s with isModalOpen := false }, []⟩
  else
    ⟨none, s, []⟩

/-- Embedding of the `WixLogin.tsx` cancel-button `onPress` (rendered only when
`allowUserToCancelLogin`): invoke `onLoginCanceled` when supplied, then
close the modal. -/
def onCancelPress (onLoginCanceledProvided : Bool) (s : ComponentState) :
    ComponentState × List Call :=
  ({ s with isModalOpen := false },
   if onLoginCanceledProvided then [Call.onLoginCanceled] else [])

/-- The object returned by the `useWixLogin` hook: a single operation. -/
structure WixLoginApi where
  openLoginModal : GlobalState → ComponentState → Except WixLoginError ComponentState

/-- Embedding of `src/useWixLogin.ts`: `openLoginModal` invokes the globally registered
`openModal` of the mounted instance when the handle is set, and throws
`ComponentNotMountedError` otherwise. -/
def useWixLogin : WixLoginApi :=
  ⟨fun g s =>
    match g.openWixLoginModal with
    | some _ => .ok (openModal s)
    | none => .error .componentNotMounted⟩

/-- Modelled from the spec: `Linking.createURL` belongs to the external
deep-linking subsystem (`expo-linking`), not to this repository; per the
spec the callback URL is the app\x27s URL scheme combined with a path,
`<app-scheme>://<callback-path>`. -/
def createURL (scheme path : String) : String :=
  scheme ++ "://" ++ path

/-- Modelled from the spec: `DEFAULT_CALLBACK_URL` is defined in
`src/const.ts`, which is not among the provided sources; the spec describes
it only as "the default path", and its deep-link example uses the path
`auth-callback`. -/
def DEFAULT_CALLBACK_URL : String :=
  "auth-callback"

/-- Embedding of the `WixLogin.tsx` `callbackUrl` memo: `createURL` applied to the custom
override when supplied and to the default path otherwise. -/
def callbackUrl (scheme : String) (customCallbackUrl : Option String) : String :=
  createURL scheme (customCallbackUrl.getD DEFAULT_CALLBACK_URL)

/-- Whether a call is an invocation of the completion callback. -/
def Call.isLoginComplete : Call → Bool
  | .onLoginComplete _ => true
  | _ => false

/-- Whether a call is an invocation of the cancellation callback. -/
def Call.isLoginCanceled : Call → Bool
  | .onLoginCanceled => true
  | _ => false

/-- Whether a call is a token exchange (`getMemberTokens`). -/
def Call.isTokenExchange : Call → Bool
  | .getMemberTokens _ _ _ => true
  | _ => false

/-- Whether a call is a network call on the client (authorization-data
generation or authorization-URL retrieval). -/
def Call.isNetworkCall : Call → Bool
  | .generateOAuthData _ => true
  | .getAuthUrl _ => true
  | _ => false

/-- A concrete authorization-data generator for use in concrete scenarios. -/
def sampleGenerate (_cb : String) : OauthData := ⟨7⟩

/-- A concrete authorization-URL retrieval for use in concrete scenarios. -/
def sampleAuthUrl (_d : OauthData) : String := "https://example.com/login"

/-- A concrete callback-URL parser for use in concrete scenarios. -/
def sampleParse (_url : String) : ParsedUrl := ⟨"ABC", "XYZ"⟩

/-- A concrete token exchange for use in concrete scenarios. -/
def sampleExchange (_code _state : String) (d : OauthData) : Tokens := ⟨d.payload + 1⟩

/-- A fully capable client used as a concrete scenario input. -/
def sampleClient : WixClient :=
  ⟨some sampleGenerate, some sampleAuthUrl, some sampleParse, some sampleExchange⟩

/-- C2: at most one singleton open-handle exists process-wide at a time.
Mounting while the handle is set raises the multiple-components error,
mounting while it is unset installs the handle and the mounted flag,
unmounting clears the handle, and after unmounting the first instance a
second instance mounts successfully. -/
theorem singleton_handle_lifecycle (i j : Nat) (g : GlobalState) (s t : ComponentState) :
    (g.openWixLoginModal.isSome = true → mount i g s = .error .tooManyComponents) ∧
    (unmount g s).1.openWixLoginModal = none ∧
    (g.openWixLoginModal = none →
      mount i g s = .ok (⟨some i, g.urlListeners + 1⟩, { s with isMounted := true }) ∧
      mount j (⟨some i, g.urlListeners + 1⟩ : GlobalState) t = .error .tooManyComponents ∧
      mount j (unmount ⟨some i, g.urlListeners + 1⟩ { s with isMounted := true }).1 t =
        .ok (⟨some j, g.urlListeners + 1 + 1⟩, { t with isMounted := true })) := by
  refine ⟨?_, rfl, ?_⟩
  · intro h
    simp [mount, h]
  · intro h
    refine ⟨?_, ?_, ?_⟩
    · simp [mount, h]
    · simp [mount]
    · simp [mount, unmount]

/-- C2 witness: the lifecycle facts at concrete states. -/
theorem singleton_handle_lifecycle_witness :
    mount 0 (⟨some 5, 1⟩ : GlobalState) ⟨true, false, none, ""⟩ =
      .error .tooManyComponents ∧
    mount 0 (⟨none, 0⟩ : GlobalState) ⟨false, false, none, ""⟩ =
      .ok (⟨some 0, 1⟩, ⟨true, false, none, ""⟩) :=
  ⟨(singleton_handle_lifecycle 0 1 ⟨some 5, 1⟩ ⟨true, false, none, ""⟩
      ⟨false, false, none, ""⟩).1 rfl,
   ((singleton_handle_lifecycle 0 1 ⟨none, 0⟩ ⟨false, false, none, ""⟩
      ⟨false, false, none, ""⟩).2.2 rfl).1⟩

/-- C3: a deep-link URL delivered while a session is active (mounted,
pending authorization data present) is parsed, the token exchange is called
with exactly the parsed code, the parsed state and the pending data, the
completion callback is invoked exactly once with the resulting tokens, and
the modal is then set closed. -/
theorem deeplink_success_exchange (gen : String → OauthData) (getA : OauthData → String)
    (parse : String → ParsedUrl) (exchange : String → String → OauthData → Tokens)
    (url : String) (s : ComponentState) (d : OauthData)
    (hm : s.isMounted = true) (hd : s.oAuthData = some d) :
    onLoginCallback ⟨some gen, some getA, some parse, some exchange⟩ url s =
      ⟨none, { s with isModalOpen := false },
        [Call.parseFromUrl url,
         Call.getMemberTokens (parse url).code (parse url).state d,
         Call.onLoginComplete (exchange (parse url).code (parse url).state d)]⟩ ∧
    ((onLoginCallback ⟨some gen, some getA, some parse, some exchange⟩ url s).calls.filter
        Call.isLoginComplete).length = 1 := by
  have h1 : onLoginCallback ⟨some gen, some getA, some parse, some exchange⟩ url s =
      ⟨none, { s with isModalOpen := false },
        [Call.parseFromUrl url,
         Call.getMemberTokens (parse url).code (parse url).state d,
         Call.onLoginComplete (exchange (parse url).code (parse url).state d)]⟩ := by
    simp [onLoginCallback, isOAuthClient, hm, hd]
  refine ⟨h1, ?_⟩
  rw [h1]
  rfl

/-- C3 witness: the success path at a concrete client, state and URL. -/
theorem deeplink_success_exchange_witness :
    onLoginCallback sampleClient "myapp://auth-callback?code=ABC&state=XYZ"
        ⟨true, true, some ⟨7⟩, "https://example.com/login"⟩ =
      ⟨none, ⟨true, false, some ⟨7⟩, "https://example.com/login"⟩,
        [Call.parseFromUrl "myapp://auth-callback?code=ABC&state=XYZ",
         Call.getMemberTokens "ABC" "XYZ" ⟨7⟩,
         Call.onLoginComplete ⟨8⟩]⟩ :=
  (deeplink_success_exchange sampleGenerate sampleAuthUrl sampleParse sampleExchange
    "myapp://auth-callback?code=ABC&state=XYZ"
    ⟨true, true, some ⟨7⟩, "https://example.com/login"⟩ ⟨7⟩ rfl rfl).1

/-- C1 (code behavior at the failing input): after a user cancellation the
modal is closed but the pending authorization data survives, so a deep-link
URL delivered then still passes the guard and the completion callback is
invoked — the stale-callback guard the spec requires is absent. -/
theorem stale_deeplink_after_cancel_invokes_completion :
    (modalEffect sampleClient "myapp://auth-callback"
        (onCancelPress true ⟨true, true, some ⟨7⟩, "https://example.com/login"⟩).1).state.isModalOpen
      = false ∧
    ((onLoginCallback sampleClient "myapp://auth-callback?code=ABC&state=XYZ"
        (modalEffect sampleClient "myapp://auth-callback"
          (onCancelPress true ⟨true, true, some ⟨7⟩, "https://example.com/login"⟩).1).state).calls.filter
        Call.isLoginComplete).length = 1 :=
  ⟨rfl, rfl⟩

/-- C4 counterexample: running the close branch of the modal effect on a
just-closed state leaves the pending authorization-request descriptor in
place — part of the login session state survives a close. -/
theorem close_keeps_pending_auth_data :
    ((modalEffect sampleClient "myapp://auth-callback"
        ⟨true, false, some ⟨5⟩, "https://example.com/login"⟩).state).oAuthData ≠ none := by
  decide

/-- C4 amended: on close the modal-open flag is down and the authorization
URL is reset to the empty string, but the pending authorization-request
descriptor is left unchanged (it is only overwritten by the next open). -/
theorem close_clears_url_but_not_auth_data (client : WixClient) (cb : String)
    (s : ComponentState) (hc : isOAuthClient client = true)
    (hclosed : s.isModalOpen = false) :
    (modalEffect client cb s).state.authUrl = "" ∧
    (modalEffect client cb s).state.isModalOpen = false ∧
    (modalEffect client cb s).state.oAuthData = s.oAuthData ∧
    (modalEffect client cb s).err = none := by
  simp [modalEffect, hc, hclosed]

/-- C4 amended witness: the close branch at a concrete state. -/
theorem close_clears_url_but_not_auth_data_witness :
    (modalEffect sampleClient "cb" ⟨true, false, some ⟨5⟩, "u"⟩).state.authUrl = "" ∧
    (modalEffect sampleClient "cb" ⟨true, false, some ⟨5⟩, "u"⟩).state.isModalOpen = false ∧
    (modalEffect sampleClient "cb" ⟨true, false, some ⟨5⟩, "u"⟩).state.oAuthData = some ⟨5⟩ ∧
    (modalEffect sampleClient "cb" ⟨true, false, some ⟨5⟩, "u"⟩).err = none :=
  close_clears_url_but_not_auth_data sampleClient "cb" ⟨true, false, some ⟨5⟩, "u"⟩ rfl rfl

/-- C5: an HTTP error with status 400 while the hosted page loads closes
the modal and raises the unauthorized-callback-URL error, whose message
contains the exact constructed callback URL. -/
theorem http400_closes_and_raises (cb : String) (s : ComponentState) :
    onHttpError cb 400 s =
      ⟨some (.unauthorizedCallbackUrl cb), { s with isModalOpen := false }, []⟩ ∧
    ∃ pre post, (WixLoginError.unauthorizedCallbackUrl cb).message = pre ++ cb ++ post :=
  ⟨by simp [onHttpError], unauthorizedCallbackUrlMsgPre, unauthorizedCallbackUrlMsgPost, rfl⟩

/-- C6: a client lacking any of the four required operations makes the
modal effect raise the client-capability error with no network call
(empty call list) and no state change. -/
theorem missing_capability_errors_before_network (client : WixClient) (cb : String)
    (s : ComponentState) (h : isOAuthClient client = false) :
    modalEffect client cb s = ⟨some .clientIsNotOAuthClient, s, []⟩ := by
  simp [modalEffect, h]

/-- C6 witness: a client missing the authorization-data generator. -/
theorem missing_capability_errors_before_network_witness :
    modalEffect ⟨none, some sampleAuthUrl, some sampleParse, some sampleExchange⟩ "cb"
        ⟨true, true, none, ""⟩ =
      ⟨some .clientIsNotOAuthClient, ⟨true, true, none, ""⟩, []⟩ :=
  missing_capability_errors_before_network
    ⟨none, some sampleAuthUrl, some sampleParse, some sampleExchange⟩ "cb"
    ⟨true, true, none, ""⟩ rfl

/-- C7: the accessor returns a single operation that, when the process-wide
handle is set, triggers the registered instance's openModal (which opens the
modal when the instance is mounted), and raises the component-not-mounted
error when the handle is unset. -/
theorem accessor_contract (g : GlobalState) (s : ComponentState) :
    (∀ i, g.openWixLoginModal = some i →
      useWixLogin.openLoginModal g s = .ok (openModal s)) ∧
    (g.openWixLoginModal = none →
      useWixLogin.openLoginModal g s = .error .componentNotMounted) ∧
    (s.isMounted = true → (openModal s).isModalOpen = true) := by
  refine ⟨?_, ?_, ?_⟩
  · intro i h
    simp [useWixLogin, h]
  · intro h
    simp [useWixLogin, h]
  · intro h
    simp [openModal, h]

/-- C7 witness: the accessor at a set and an unset handle. -/
theorem accessor_contract_witness :
    useWixLogin.openLoginModal ⟨some 0, 1⟩ ⟨true, false, none, ""⟩ =
      .ok (openModal ⟨true, false, none, ""⟩) ∧
    useWixLogin.openLoginModal ⟨none, 0⟩ ⟨true, false, none, ""⟩ =
      .error .componentNotMounted ∧
    (openModal ⟨true, false, none, ""⟩).isModalOpen = true :=
  ⟨(accessor_contract ⟨some 0, 1⟩ ⟨true, false, none, ""⟩).1 0 rfl,
   (accessor_contract ⟨none, 0⟩ ⟨true, false, none, ""⟩).2.1 rfl,
   (accessor_contract ⟨some 0, 1⟩ ⟨true, false, none, ""⟩).2.2 rfl⟩

/-- C8: the constructed callback URL is the app scheme combined with the
override when supplied and with the default path otherwise, and re-deriving
it for the same override value yields the identical URL. -/
theorem callback_url_construction (scheme path : String) (c : Option String) :
    callbackUrl scheme (some path) = scheme ++ "://" ++ path ∧
    callbackUrl scheme none = scheme ++ "://" ++ DEFAULT_CALLBACK_URL ∧
    callbackUrl scheme c = callbackUrl scheme c :=
  ⟨rfl, rfl, rfl⟩

/-- C9: with the cancel affordance triggered and the cancellation callback
supplied, the callback fires exactly once, the modal closes, no token
exchange occurs in the press, and the subsequent close effect makes no
calls. -/
theorem cancel_press_behavior (client : WixClient) (cb : String) (s : ComponentState)
    (hc : isOAuthClient client = true) :
    ((onCancelPress true s).2.filter Call.isLoginCanceled).length = 1 ∧
    (onCancelPress true s).2.filter Call.isTokenExchange = [] ∧
    (onCancelPress true s).1.isModalOpen = false ∧
    (modalEffect client cb (onCancelPress true s).1).calls = [] := by
  refine ⟨rfl, rfl, rfl, ?_⟩
  simp [modalEffect, onCancelPress, hc]

/-- C9 witness: the cancel press at a concrete open session. -/
theorem cancel_press_behavior_witness :
    ((onCancelPress true ⟨true, true, some ⟨7⟩, "u"⟩).2.filter Call.isLoginCanceled).length = 1 ∧
    (onCancelPress true ⟨true, true, some ⟨7⟩, "u"⟩).2.filter Call.isTokenExchange = [] ∧
    (onCancelPress true ⟨true, true, some ⟨7⟩, "u"⟩).1.isModalOpen = false ∧
    (modalEffect sampleClient "cb" (onCancelPress true ⟨true, true, some ⟨7⟩, "u"⟩).1).calls = [] :=
  cancel_press_behavior sampleClient "cb" ⟨true, true, some ⟨7⟩, "u"⟩ rfl

/-- C10: after the unmount cleanup (mounted flag cleared, URL listener left
registered), a delivered deep-link URL makes the handler return silently:
no client operation, no completion callback, no state change. -/
theorem deeplink_after_unmount_is_inert (client : WixClient) (url : String)
    (g : GlobalState) (s : ComponentState) (hc : isOAuthClient client = true) :
    (unmount g s).1.urlListeners = g.urlListeners ∧
    onLoginCallback client url (unmount g s).2 = ⟨none, (unmount g s).2, []⟩ := by
  refine ⟨rfl, ?_⟩
  simp [onLoginCallback, unmount, hc]

/-- C10 witness: a deep link after unmount at concrete states. -/
theorem deeplink_after_unmount_is_inert_witness :
    (unmount ⟨some 0, 1⟩ ⟨true, false, some ⟨7⟩, ""⟩).1.urlListeners = 1 ∧
    onLoginCallback sampleClient "myapp://auth-callback?code=ABC&state=XYZ"
        (unmount ⟨some 0, 1⟩ ⟨true, false, some ⟨7⟩, ""⟩).2 =
      ⟨none, (unmount ⟨some 0, 1⟩ ⟨true, false, some ⟨7⟩, ""⟩).2, []⟩ :=
  deeplink_after_unmount_is_inert sampleClient "myapp://auth-callback?code=ABC&state=XYZ"
    ⟨some 0, 1⟩ ⟨true, false, some ⟨7⟩, ""⟩ rfl

end WixLoginRN
